import Mathlib

/-!
Verification of the QR-generation service of `common-tools`
(`operations/qr-generation`): a shallow embedding in Lean 4 of the
Generation Service (`internal/qr`, `service.Generate` and
`truncateString`) and of the HTTP Request Handler
(`internal/transport/http`, `Handler.Generate` and
`Handler.HealthCheck`), together with theorems about the validation
pipeline, error taxonomy and response shaping.

The Encoding Engine (`github.com/skip2/go-qrcode`, `qrcode.Encode`) is an
external collaborator; the embedding is parameterised by an arbitrary
engine function.  Each operation additionally returns the list of
engine / service invocations it performed, so that "no engine call is
made" is a provable statement about the model.
-/

namespace QRGen

/-- Byte sequences (`[]byte` in Go) are modelled as lists of naturals. -/
abbrev Bytes := List Nat

/-- Error-correction levels of the engine (`qrcode.RecoveryLevel`).
The service always passes `Medium` (`qrcode.Medium`, ~15% recovery). -/
inductive RecoveryLevel where
  | Low
  | Medium
  | High
  | Highest
deriving DecidableEq, Repr

/-- One invocation of the Encoding Engine: the arguments the service
passed to `qrcode.Encode(string(data), level, size)`. -/
structure EngineCall where
  data : Bytes
  level : RecoveryLevel
  size : Int
deriving DecidableEq, Repr

/-- The Encoding Engine as an opaque capability
(`qrcode.Encode : data × level × size → ([]byte, error)`), modelled as a
function returning either the PNG bytes or an error message. -/
abbrev Engine := Bytes → RecoveryLevel → Int → Except String Bytes

/-- `service.Generate` (internal/qr/service.go): validates the payload and
the requested size, then delegates to the Encoding Engine with the fixed
`Medium` recovery level.  Returns the Go function's result (image bytes or
error message) paired with the list of engine invocations performed.
Go source:
```
if len(data) == 0 { return nil, fmt.Errorf("data cannot be empty") }
if size <= 0 || size > 2048 {
    return nil, fmt.Errorf("invalid size: must be between 1 and 2048") }
png, err := qrcode.Encode(string(data), qrcode.Medium, size)
if err != nil { return nil, fmt.Errorf("failed to encode QR code: %w", err) }
return png, nil
```
`size` is a Go `int`, modelled as `Int`. -/
def serviceGenerate (engine : Engine) (data : Bytes) (size : Int) :
    Except String Bytes × List EngineCall :=
  if data.length = 0 then
    (Except.error "data cannot be empty", [])
  else if size ≤ 0 ∨ size > 2048 then
    (Except.error "invalid size: must be between 1 and 2048", [])
  else
    match engine data RecoveryLevel.Medium size with
    | Except.ok png => (Except.ok png, [⟨data, RecoveryLevel.Medium, size⟩])
    | Except.error e =>
        (Except.error ("failed to encode QR code: " ++ e),
         [⟨data, RecoveryLevel.Medium, size⟩])

/-- `truncateString` (internal/qr/service.go): truncates a string to
`maxLen` bytes for safe logging, appending `"..."` when it truncates.
Strings are modelled as lists of characters (Go `len` and slicing are
byte-based; the modelled payloads are treated at the same granularity).
Go source:
```
if len(s) <= maxLen { return s }
return s[:maxLen] + "..."
```
(The Go slice `s[:maxLen]` would panic for negative `maxLen`; the only
call site passes `50`, and the model takes `maxLen.toNat` there.) -/
def truncateString (s : List Char) (maxLen : Int) : List Char :=
  if (s.length : Int) ≤ maxLen then s
  else s.take maxLen.toNat ++ ['.', '.', '.']

/-- The payload preview emitted in the service's diagnostic events:
`truncateString(string(data), 50)`. -/
def dataPreview (s : List Char) : List Char :=
  truncateString s 50

/-! ## Transport layer (internal/transport/http/handler.go) -/

/-- The transport-level request body before any size limiting:
either a stream that will deliver `content`, or a stream whose read
fails with an error other than the size-limit error. -/
inductive BodySource where
  | bytes (content : Bytes)
  | broken
deriving DecidableEq, Repr

/-- Result of `io.ReadAll` on the `http.MaxBytesReader`-wrapped body:
the full bytes, the `*http.MaxBytesError` case, or some other read
error. -/
inductive ReadResult where
  | ok (body : Bytes)
  | tooLarge
  | failed
deriving DecidableEq, Repr

/-- `io.ReadAll(http.MaxBytesReader(w, r.Body, maxBodySize))`: a body of
at most `maxBodySize` bytes is read in full; a longer body fails with
`*http.MaxBytesError`; any other underlying read error is surfaced
as-is. -/
def readAll (src : BodySource) (maxBodySize : Int) : ReadResult :=
  match src with
  | BodySource.bytes content =>
      if (content.length : Int) ≤ maxBodySize then ReadResult.ok content
      else ReadResult.tooLarge
  | BodySource.broken => ReadResult.failed

/-- An inbound HTTP request, reduced to what `Handler.Generate` and
`Handler.HealthCheck` inspect: the method, the parsed query parameters
(`r.URL.Query()`, an ordered multimap), and the body stream. -/
structure Request where
  method : String
  query : List (String × String)
  body : BodySource
deriving Repr

/-- `url.Values.Get(key)`: the first value associated with `key`, or the
empty string when the key is absent. -/
def queryGet (params : List (String × String)) (key : String) : String :=
  match params.find? (fun p => p.fst == key) with
  | some p => p.snd
  | none => ""

/-- A response body: textual (error messages, health JSON) or binary
(the PNG image). -/
inductive RespBody where
  | text (s : String)
  | bytes (b : Bytes)
deriving DecidableEq, Repr

/-- An HTTP response as the handlers shape it: status code, the
`Content-Type` header, and the body. -/
structure Response where
  status : Nat
  contentType : String
  body : RespBody
deriving DecidableEq, Repr

/-- `http.Error(w, msg, code)`: plain-text error response; the message
is written with a trailing newline (`fmt.Fprintln`). -/
def httpError (msg : String) (code : Nat) : Response :=
  { status := code
    contentType := "text/plain; charset=utf-8"
    body := RespBody.text (msg ++ "\n") }

/-- `strconv.Atoi`: an optional `+`/`-` sign followed by at least one
decimal digit; anything else is a parse error (`none`).  (Go's overflow
error for values outside the machine `int` range is not modelled; every
overflowing value is also outside `[1, 2048]`, so the handler's combined
check `err != nil || parsedSize <= 0 || parsedSize > maxSize` rejects it
either way.) -/
def atoiDigits : List Char → Nat → Option Nat
  | [], acc => some acc
  | c :: rest, acc =>
      if '0' ≤ c ∧ c ≤ '9' then
        atoiDigits rest (acc * 10 + (c.toNat - '0'.toNat))
      else none

/-- Digit-run parser for `atoi`: at least one digit required. -/
def atoiNat (l : List Char) : Option Nat :=
  match l with
  | [] => none
  | _ => atoiDigits l 0

/-- `strconv.Atoi` entry point (see `atoiDigits`). -/
def atoi (s : String) : Option Int :=
  match s.toList with
  | '+' :: rest => (atoiNat rest).map (fun n => (n : Int))
  | '-' :: rest => (atoiNat rest).map (fun n => -(n : Int))
  | l => (atoiNat l).map (fun n => (n : Int))

/-- The observable outcome of one `Handler.Generate` call: the response
written, whether the body was read, and the service / engine invocations
performed. -/
structure GenOutcome where
  response : Response
  bodyRead : Bool
  svcCalls : List (Bytes × Int)
  engCalls : List EngineCall
deriving DecidableEq, Repr

/-- The tail of `Handler.Generate` after validation: `h.svc.Generate(body,
size)` followed by response shaping — 200 `image/png` with the PNG bytes
on success, 500 "Internal server error" on any service error. -/
def finishGenerate (engine : Engine) (body : Bytes) (size : Int) : GenOutcome :=
  match serviceGenerate engine body size with
  | (Except.ok png, calls) =>
      { response := { status := 200, contentType := "image/png"
                      body := RespBody.bytes png }
        bodyRead := true, svcCalls := [(body, size)], engCalls := calls }
  | (Except.error _, calls) =>
      { response := httpError "Internal server error" 500
        bodyRead := true, svcCalls := [(body, size)], engCalls := calls }

/-- The size-parameter block of `Handler.Generate` followed by the
delegation tail: with `sizeStr = r.URL.Query().Get("size")` already in
hand, Go sets `size := 256` and, when `sizeStr` is non-empty, parses it
with `strconv.Atoi`, rejecting a parse error or a value outside
`[1, 2048]` with a 400 before any service call. -/
def sizeParse (engine : Engine) (body : Bytes) (sizeStr : String) : GenOutcome :=
  if sizeStr ≠ "" then
    match atoi sizeStr with
    | none =>
        { response :=
            httpError "Invalid size parameter: must be between 1 and 2048" 400
          bodyRead := true, svcCalls := [], engCalls := [] }
    | some parsedSize =>
        if parsedSize ≤ 0 ∨ parsedSize > 2048 then
          { response :=
              httpError "Invalid size parameter: must be between 1 and 2048" 400
            bodyRead := true, svcCalls := [], engCalls := [] }
        else
          finishGenerate engine body parsedSize
  else
    finishGenerate engine body 256

/-- `Handler.Generate` (internal/transport/http/handler.go): method
check, size-limited body read, emptiness check, `size` query-parameter
parsing (see `sizeParse`), delegation to the Generation Service,
response shaping.
Go source (abridged):
```
if r.Method != http.MethodPost {
    http.Error(w, "Method not allowed", http.StatusMethodNotAllowed); return }
r.Body = http.MaxBytesReader(w, r.Body, h.maxBodySize)
body, err := io.ReadAll(r.Body)
if err != nil {
    var maxErr *http.MaxBytesError
    if errors.As(err, &maxErr) {
        http.Error(w, "Request body too large", http.StatusRequestEntityTooLarge); return }
    http.Error(w, "Failed to read request body", http.StatusInternalServerError); return }
if len(body) == 0 {
    http.Error(w, "Request body is empty", http.StatusBadRequest); return }
const maxSize = 2048
const defaultSize = 256
size := defaultSize
sizeStr := r.URL.Query().Get("size")
if sizeStr != "" {
    parsedSize, err := strconv.Atoi(sizeStr)
    if err != nil || parsedSize <= 0 || parsedSize > maxSize {
        http.Error(w, "Invalid size parameter: must be between 1 and 2048",
                   http.StatusBadRequest); return }
    size = parsedSize }
png, err := h.svc.Generate(body, size)
if err != nil {
    http.Error(w, "Internal server error", http.StatusInternalServerError); return }
w.Header().Set("Content-Type", "image/png")
w.WriteHeader(http.StatusOK)
w.Write(png)
```
-/
def handlerGenerate (engine : Engine) (maxBodySize : Int) (r : Request) :
    GenOutcome :=
  if r.method ≠ "POST" then
    { response := httpError "Method not allowed" 405
      bodyRead := false, svcCalls := [], engCalls := [] }
  else
    match readAll r.body maxBodySize with
    | ReadResult.tooLarge =>
        { response := httpError "Request body too large" 413
          bodyRead := true, svcCalls := [], engCalls := [] }
    | ReadResult.failed =>
        { response := httpError "Failed to read request body" 500
          bodyRead := true, svcCalls := [], engCalls := [] }
    | ReadResult.ok body =>
        if body.length = 0 then
          { response := httpError "Request body is empty" 400
            bodyRead := true, svcCalls := [], engCalls := [] }
        else
          sizeParse engine body (queryGet r.query "size")

/-- The body written by `Handler.HealthCheck`:
`json.NewEncoder(w).Encode(map[string]string{"status": "ok"})`, i.e. the
compact JSON document followed by the encoder's trailing newline. -/
def healthBody : String :=
  "\x7b\x22status\x22:\x22ok\x22\x7d" ++ "\n"

/-- `Handler.HealthCheck`: unconditionally responds 200 with
`Content-Type: application/json` and the JSON body; it inspects neither
the method nor the body nor the query, and has no access to the
Generation Service. -/
def handlerHealthCheck (_r : Request) : Response :=
  { status := 200, contentType := "application/json"
    body := RespBody.text healthBody }

/-- A concrete stub Encoding Engine for instantiating the theorems: it
always succeeds and returns the eight-byte PNG signature. -/
def stubEngine : Engine :=
  fun _ _ _ => Except.ok [137, 80, 78, 71, 13, 10, 26, 10]

/-! ## Helper lemmas -/

/-- A list with a non-zero element count is non-empty, in the form the
`len(...) == 0` guards use. -/
theorem length_ne_zero_of_ne_nil {α : Type} {l : List α} (h : l ≠ []) :
    ¬ l.length = 0 := by
  simpa [List.length_eq_zero] using h

/-- The delegation tail always performs exactly one service call, with
the body and the size it was given. -/
theorem finishGenerate_svcCalls (engine : Engine) (body : Bytes) (size : Int) :
    (finishGenerate engine body size).svcCalls = [(body, size)] := by
  unfold finishGenerate
  rcases h : serviceGenerate engine body size with ⟨res, calls⟩
  cases res <;> simp

/-- A body within the configured limit is read in full by the
size-limited reader. -/
theorem readAll_ok (body : Bytes) (maxBodySize : Int)
    (h : (body.length : Int) ≤ maxBodySize) :
    readAll (BodySource.bytes body) maxBodySize = ReadResult.ok body := by
  simp [readAll, h]

/-- Reduction of `Handler.Generate` past the method check, the body
read and the emptiness check, down to the size-parameter block. -/
theorem handlerGenerate_post_read (engine : Engine) (maxBodySize : Int)
    (q : List (String × String)) (b : BodySource) (body : Bytes)
    (hread : readAll b maxBodySize = ReadResult.ok body) (hne : body ≠ []) :
    handlerGenerate engine maxBodySize ⟨"POST", q, b⟩
      = sizeParse engine body (queryGet q "size") := by
  unfold handlerGenerate
  rw [hread]
  simp [length_ne_zero_of_ne_nil hne]

/-- The size-parameter block with an empty (or absent) `size` string
proceeds with the default size 256. -/
theorem sizeParse_default (engine : Engine) (body : Bytes) :
    sizeParse engine body "" = finishGenerate engine body 256 := rfl

/-- The size-parameter block rejects a non-empty string that fails to
parse or parses outside [1, 2048] with a 400 and no service call. -/
theorem sizeParse_bad (engine : Engine) (body : Bytes) (v : String)
    (hv : v ≠ "")
    (hbad : atoi v = none ∨ ∃ n, atoi v = some n ∧ (n ≤ 0 ∨ n > 2048)) :
    sizeParse engine body v
      = { response :=
            httpError "Invalid size parameter: must be between 1 and 2048" 400
          bodyRead := true, svcCalls := [], engCalls := [] } := by
  unfold sizeParse
  rw [if_pos hv]
  rcases hbad with h | ⟨n, hn, hrange⟩
  · rw [h]
  · rw [hn]
    exact if_pos hrange

/-- The size-parameter block accepts a non-empty string parsing inside
[1, 2048] and proceeds with the parsed size. -/
theorem sizeParse_good (engine : Engine) (body : Bytes) (v : String)
    (hv : v ≠ "") (n : Int) (hn : atoi v = some n) (h1 : 1 ≤ n)
    (h2 : n ≤ 2048) :
    sizeParse engine body v = finishGenerate engine body n := by
  unfold sizeParse
  rw [if_pos hv, hn]
  exact if_neg (by omega)

/-! ## Claim theorems -/

/-- C1: for every non-empty payload and every size in [1, 2048],
`service.Generate` invokes the Encoding Engine (once, with the payload,
the fixed `Medium` recovery level and the requested size) and returns
the engine's bytes verbatim with no error; the returned image is
non-empty whenever the engine's output is (the engine is an external
collaborator, so its success and the non-emptiness of its PNG output
are hypotheses of the statement). -/
theorem serviceGenerate_valid (engine : Engine) (data : Bytes) (size : Int)
    (png : Bytes) (hdata : data ≠ []) (hlo : 1 ≤ size) (hhi : size ≤ 2048)
    (heng : engine data RecoveryLevel.Medium size = Except.ok png)
    (hpng : png ≠ []) :
    serviceGenerate engine data size
      = (Except.ok png, [⟨data, RecoveryLevel.Medium, size⟩]) ∧ png ≠ [] := by
  refine ⟨?_, hpng⟩
  have h2 : ¬ (size ≤ 0 ∨ size > 2048) := by omega
  unfold serviceGenerate
  rw [if_neg (length_ne_zero_of_ne_nil hdata), if_neg h2, heng]

/-- Witness for C1: payload `"hi"`, size 256, the stub engine. -/
theorem serviceGenerate_valid_witness :
    serviceGenerate stubEngine [104, 105] 256
      = (Except.ok [137, 80, 78, 71, 13, 10, 26, 10],
         [⟨[104, 105], RecoveryLevel.Medium, 256⟩])
    ∧ ([137, 80, 78, 71, 13, 10, 26, 10] : Bytes) ≠ [] :=
  serviceGenerate_valid stubEngine [104, 105] 256 [137, 80, 78, 71, 13, 10, 26, 10]
    (by decide) (by decide) (by decide) rfl (by decide)

/-- C3 counterexample: at the empty payload with size 0 (out of range),
`service.Generate` does not return the message
"invalid size: must be between 1 and 2048" — the emptiness check runs
first and returns "data cannot be empty" — so the claim fails for the
empty payload. -/
theorem serviceGenerate_invalid_size_cex :
    (serviceGenerate stubEngine [] 0).1 = Except.error "data cannot be empty"
    ∧ "data cannot be empty" ≠ "invalid size: must be between 1 and 2048" :=
  ⟨rfl, by decide⟩

/-- C3 (amended to non-empty payloads): for every size with size ≤ 0 or
size > 2048 and every non-empty payload, `service.Generate` returns the
error "invalid size: must be between 1 and 2048" and makes no call to
the Encoding Engine. -/
theorem serviceGenerate_invalid_size (engine : Engine) (data : Bytes)
    (size : Int) (hdata : data ≠ []) (hsize : size ≤ 0 ∨ size > 2048) :
    serviceGenerate engine data size
      = (Except.error "invalid size: must be between 1 and 2048", []) := by
  unfold serviceGenerate
  rw [if_neg (length_ne_zero_of_ne_nil hdata), if_pos hsize]

/-- Witness for C3 (amended): payload `[1]`, size 0. -/
theorem serviceGenerate_invalid_size_witness :
    serviceGenerate stubEngine [1] 0
      = (Except.error "invalid size: must be between 1 and 2048", []) :=
  serviceGenerate_invalid_size stubEngine [1] 0 (by decide) (Or.inl (by decide))

/-- C4: for the empty payload and every size (and every engine),
`service.Generate` returns the error "data cannot be empty" and makes
no call to the Encoding Engine. -/
theorem serviceGenerate_empty_data (engine : Engine) (size : Int) :
    serviceGenerate engine [] size = (Except.error "data cannot be empty", []) :=
  rfl

/-- C8 counterexample: the diagnostic payload preview is not capped at
50 characters: a 51-character payload yields a 53-character preview,
and a 51-character payload consisting of fifty `a`s and a dot appears
in full at the start of its own preview. -/
theorem dataPreview_cap50_cex :
    ¬ (dataPreview (List.replicate 51 'a')).length ≤ 50
    ∧ (dataPreview (List.replicate 50 'a' ++ ['.'])).take 51
        = List.replicate 50 'a' ++ ['.'] := by
  decide

/-- C8 (amended): the preview is capped at 53 characters, not 50: a
payload of at most 50 characters is logged unchanged, and a longer
payload yields exactly its first 50 characters followed by `"..."` (53
characters in all), so no payload character beyond the first 50 ever
appears in the preview. -/
theorem dataPreview_cap (s : List Char) :
    (dataPreview s).length ≤ 53
    ∧ (s.length ≤ 50 → dataPreview s = s)
    ∧ (50 < s.length →
        dataPreview s = s.take 50 ++ ['.', '.', '.']
        ∧ (dataPreview s).length = 53) := by
  unfold dataPreview truncateString
  by_cases h : (s.length : Int) ≤ 50
  · have hn : s.length ≤ 50 := by exact_mod_cast h
    rw [if_pos h]
    exact ⟨by omega, fun _ => rfl, fun hgt => absurd hgt (by omega)⟩
  · have hn : 50 < s.length := by omega
    rw [if_neg h]
    have hlen : (s.take (50 : Int).toNat ++ ['.', '.', '.']).length = 53 := by
      simp [List.length_take]
      omega
    exact ⟨by omega, fun hle => absurd hle (by omega), fun _ => ⟨rfl, hlen⟩⟩

/-- Witness for C8 (amended): a 60-character payload is previewed as
its first 50 characters plus `"..."`, and a 10-character payload is
previewed unchanged. -/
theorem dataPreview_cap_witness :
    (dataPreview (List.replicate 60 'b') = List.replicate 50 'b' ++ ['.', '.', '.']
      ∧ (dataPreview (List.replicate 60 'b')).length = 53)
    ∧ dataPreview (List.replicate 10 'b') = List.replicate 10 'b' := by
  refine ⟨?_, (dataPreview_cap (List.replicate 10 'b')).2.1 (by decide)⟩
  have h := (dataPreview_cap (List.replicate 60 'b')).2.2 (by decide)
  simpa using h

/-- C2: size-parameter handling of `Handler.Generate` on a POST whose
body reads successfully and is non-empty: with the `size` parameter
absent the handler proceeds with the default 256; a present non-empty
value that fails to parse, or parses to a value outside [1, 2048],
yields a 400 with no service and no engine call; a value parsing inside
[1, 2048] (both boundaries included) proceeds to the service with that
size — so parsing happens before the Generation Service is called and
an out-of-range size never reaches the service or the engine. -/
theorem handler_size_parameter (engine : Engine) (maxB : Int)
    (q : List (String × String)) (body : Bytes)
    (hread : readAll (BodySource.bytes body) maxB = ReadResult.ok body)
    (hne : body ≠ []) :
    (q.find? (fun p => p.fst == "size") = none →
       handlerGenerate engine maxB ⟨"POST", q, BodySource.bytes body⟩
         = finishGenerate engine body 256
       ∧ (handlerGenerate engine maxB ⟨"POST", q, BodySource.bytes body⟩).svcCalls
         = [(body, 256)])
  ∧ (∀ v, queryGet q "size" = v → v ≠ "" → atoi v = none →
       handlerGenerate engine maxB ⟨"POST", q, BodySource.bytes body⟩
         = { response :=
               httpError "Invalid size parameter: must be between 1 and 2048" 400
             bodyRead := true, svcCalls := [], engCalls := [] })
  ∧ (∀ v n, queryGet q "size" = v → v ≠ "" → atoi v = some n →
       n ≤ 0 ∨ n > 2048 →
       handlerGenerate engine maxB ⟨"POST", q, BodySource.bytes body⟩
         = { response :=
               httpError "Invalid size parameter: must be between 1 and 2048" 400
             bodyRead := true, svcCalls := [], engCalls := [] })
  ∧ (∀ v n, queryGet q "size" = v → v ≠ "" → atoi v = some n →
       1 ≤ n → n ≤ 2048 →
       handlerGenerate engine maxB ⟨"POST", q, BodySource.bytes body⟩
         = finishGenerate engine body n
       ∧ (handlerGenerate engine maxB ⟨"POST", q, BodySource.bytes body⟩).svcCalls
         = [(body, n)]) := by
  have hred := handlerGenerate_post_read engine maxB q (BodySource.bytes body)
    body hread hne
  refine ⟨?_, ?_, ?_, ?_⟩
  · intro hnone
    have hq : queryGet q "size" = "" := by unfold queryGet; rw [hnone]
    rw [hred, hq, sizeParse_default]
    exact ⟨rfl, finishGenerate_svcCalls engine body 256⟩
  · intro v hv hvne hparse
    rw [hred, hv]
    exact sizeParse_bad engine body v hvne (Or.inl hparse)
  · intro v n hv hvne hparse hrange
    rw [hred, hv]
    exact sizeParse_bad engine body v hvne (Or.inr ⟨n, hparse, hrange⟩)
  · intro v n hv hvne hparse h1 h2
    rw [hred, hv, sizeParse_good engine body v hvne n hparse h1 h2]
    exact ⟨rfl, finishGenerate_svcCalls engine body n⟩

/-- Witness for C2: body `[1]`, limit 1024; absent parameter, `"abc"`,
`"2049"`, and the two boundaries `"1"` and `"2048"`. -/
theorem handler_size_parameter_witness :
    (handlerGenerate stubEngine 1024 ⟨"POST", [], BodySource.bytes [1]⟩).svcCalls
      = [([1], 256)]
    ∧ handlerGenerate stubEngine 1024
        ⟨"POST", [("size", "abc")], BodySource.bytes [1]⟩
      = { response :=
            httpError "Invalid size parameter: must be between 1 and 2048" 400
          bodyRead := true, svcCalls := [], engCalls := [] }
    ∧ handlerGenerate stubEngine 1024
        ⟨"POST", [("size", "2049")], BodySource.bytes [1]⟩
      = { response :=
            httpError "Invalid size parameter: must be between 1 and 2048" 400
          bodyRead := true, svcCalls := [], engCalls := [] }
    ∧ (handlerGenerate stubEngine 1024
        ⟨"POST", [("size", "1")], BodySource.bytes [1]⟩).svcCalls
      = [([1], 1)]
    ∧ (handlerGenerate stubEngine 1024
        ⟨"POST", [("size", "2048")], BodySource.bytes [1]⟩).svcCalls
      = [([1], 2048)] :=
  ⟨((handler_size_parameter stubEngine 1024 [] [1] (by decide) (by decide)).1
      rfl).2,
   (handler_size_parameter stubEngine 1024 [("size", "abc")] [1] (by decide)
      (by decide)).2.1 "abc" rfl (by decide) (by decide),
   (handler_size_parameter stubEngine 1024 [("size", "2049")] [1] (by decide)
      (by decide)).2.2.1 "2049" 2049 rfl (by decide) (by decide)
      (Or.inr (by decide)),
   ((handler_size_parameter stubEngine 1024 [("size", "1")] [1] (by decide)
      (by decide)).2.2.2 "1" 1 rfl (by decide) (by decide) (by decide)
      (by decide)).2,
   ((handler_size_parameter stubEngine 1024 [("size", "2048")] [1] (by decide)
      (by decide)).2.2.2 "2048" 2048 rfl (by decide) (by decide) (by decide)
      (by decide)).2⟩

/-- C5: a POST to /generate whose body exceeds the configured maximum
body size yields a 413 with no service and no engine call; any other
body-read failure yields a 500 (also before any service call). -/
theorem handler_body_limit (engine : Engine) (maxB : Int)
    (q : List (String × String)) :
    (∀ content : Bytes, (content.length : Int) > maxB →
        handlerGenerate engine maxB ⟨"POST", q, BodySource.bytes content⟩
          = { response := httpError "Request body too large" 413
              bodyRead := true, svcCalls := [], engCalls := [] })
  ∧ handlerGenerate engine maxB ⟨"POST", q, BodySource.broken⟩
      = { response := httpError "Failed to read request body" 500
          bodyRead := true, svcCalls := [], engCalls := [] } := by
  constructor
  · intro content h
    have hr : readAll (BodySource.bytes content) maxB = ReadResult.tooLarge := by
      have hgt : ¬ ((content.length : Int) ≤ maxB) := by omega
      simp [readAll, hgt]
    unfold handlerGenerate
    rw [hr]
    simp
  · unfold handlerGenerate
    simp [readAll]

/-- Witness for C5: limit 4 with a five-byte body, and a broken body
stream. -/
theorem handler_body_limit_witness :
    handlerGenerate stubEngine 4 ⟨"POST", [], BodySource.bytes [1, 2, 3, 4, 5]⟩
      = { response := httpError "Request body too large" 413
          bodyRead := true, svcCalls := [], engCalls := [] }
    ∧ handlerGenerate stubEngine 4 ⟨"POST", [], BodySource.broken⟩
      = { response := httpError "Failed to read request body" 500
          bodyRead := true, svcCalls := [], engCalls := [] } :=
  ⟨(handler_body_limit stubEngine 4 []).1 [1, 2, 3, 4, 5] (by decide),
   (handler_body_limit stubEngine 4 []).2⟩

/-- C6: any request to /generate with a method other than POST yields a
405, the body is never read, and neither the service nor the engine is
invoked. -/
theorem handler_non_post (engine : Engine) (maxB : Int) (r : Request)
    (h : r.method ≠ "POST") :
    handlerGenerate engine maxB r
      = { response := httpError "Method not allowed" 405
          bodyRead := false, svcCalls := [], engCalls := [] } := by
  unfold handlerGenerate
  rw [if_pos h]

/-- Witness for C6: a GET request. -/
theorem handler_non_post_witness :
    handlerGenerate stubEngine 1024 ⟨"GET", [], BodySource.bytes [1]⟩
      = { response := httpError "Method not allowed" 405
          bodyRead := false, svcCalls := [], engCalls := [] } :=
  handler_non_post stubEngine 1024 ⟨"GET", [], BodySource.bytes [1]⟩ (by decide)

/-- C7: a POST to /generate whose body reads successfully as zero bytes
yields a 400 with the message "Request body is empty" and no service
call; that response is distinct from the 413 size-exceeded response. -/
theorem handler_empty_body (engine : Engine) (maxB : Int)
    (q : List (String × String))
    (hread : readAll (BodySource.bytes []) maxB = ReadResult.ok []) :
    handlerGenerate engine maxB ⟨"POST", q, BodySource.bytes []⟩
      = { response := httpError "Request body is empty" 400
          bodyRead := true, svcCalls := [], engCalls := [] }
    ∧ httpError "Request body is empty" 400
        ≠ httpError "Request body too large" 413 := by
  refine ⟨?_, by decide⟩
  unfold handlerGenerate
  rw [hread]
  simp

/-- Witness for C7: limit 1024, empty body. -/
theorem handler_empty_body_witness :
    handlerGenerate stubEngine 1024 ⟨"POST", [], BodySource.bytes []⟩
      = { response := httpError "Request body is empty" 400
          bodyRead := true, svcCalls := [], engCalls := [] }
    ∧ httpError "Request body is empty" 400
        ≠ httpError "Request body too large" 413 :=
  handler_empty_body stubEngine 1024 [] (by decide)

/-- C9: `Handler.HealthCheck` responds 200 with content type
`application/json` and the JSON body `\x7b"status":"ok"\x7d` (followed by the
encoder's trailing newline) for every request — it performs no method
check, so this holds for GET, POST and every other method alike, and it
has no access to the Generation Service (the model takes no engine). -/
theorem healthcheck_always_ok (r : Request) :
    handlerHealthCheck r
      = { status := 200, contentType := "application/json"
          body := RespBody.text ("\x7b\x22status\x22:\x22ok\x22\x7d" ++ "\n") } :=
  rfl

/-- C10: a /generate request whose `size` query parameter is present
with an empty value is handled exactly like one with the parameter
absent — `url.Values.Get` returns `""` in both cases and the handler
only tests that string — so the default 256 is used and generation
proceeds rather than a 400. -/
theorem size_param_empty_value (engine : Engine) (maxB : Int) (m : String)
    (b : BodySource) :
    handlerGenerate engine maxB ⟨m, [("size", "")], b⟩
      = handlerGenerate engine maxB ⟨m, [], b⟩
    ∧ (∀ body : Bytes, readAll b maxB = ReadResult.ok body → body ≠ [] →
        (handlerGenerate engine maxB ⟨"POST", [("size", "")], b⟩).svcCalls
          = [(body, 256)]) := by
  constructor
  · rfl
  · intro body hread hne
    rw [handlerGenerate_post_read engine maxB [("size", "")] b body hread hne]
    have hq : queryGet [("size", "")] "size" = "" := rfl
    rw [hq, sizeParse_default]
    exact finishGenerate_svcCalls engine body 256

/-- Witness for C10: POST with body `[7]` and `?size=`. -/
theorem size_param_empty_value_witness :
    handlerGenerate stubEngine 1024 ⟨"POST", [("size", "")], BodySource.bytes [7]⟩
      = handlerGenerate stubEngine 1024 ⟨"POST", [], BodySource.bytes [7]⟩
    ∧ (handlerGenerate stubEngine 1024
        ⟨"POST", [("size", "")], BodySource.bytes [7]⟩).svcCalls
      = [([7], 256)] :=
  ⟨(size_param_empty_value stubEngine 1024 "POST" (BodySource.bytes [7])).1,
   (size_param_empty_value stubEngine 1024 "POST" (BodySource.bytes [7])).2
     [7] (by decide) (by decide)⟩

end QRGen
